import Mathlib

/-!
Verification of the tau2-bench evaluation and metrics engine, a shallow
embedding of the scoring logic of generate_excel_report.py and of the
tool-call argument recovery in src/tau2/utils/llm_utils.py.

Modelling conventions: Python floats and Excel numbers are embedded as
rationals; Python values appearing as tool-call argument payloads are an
inductive over None, dict and str; the Excel formulas emitted by
create_task_summary_sheet and create_summary_sheet are embedded with
Excel semantics (COMBIN returns a #NUM! error when number < number_chosen,
IFERROR maps any error to a blank, modelled as Option.none).
-/

set_option maxRecDepth 8000

namespace Tau2

/-- Success flag from generate_excel_report.py, generate_report (line 1909):
is_pass = 1 if abs(float(reward) - 1.0) <= 1e-6 else 0. -/
def isPassFlag (reward : ℚ) : ℕ :=
  if |reward - 1| ≤ 1 / 1000000 then 1 else 0

/-- One loaded trial record, with the fields of the per-simulation dict built
in generate_report (reward, termination_reason, tool calls, ground-truth
deltas, reward breakdown, argument-parse health count). -/
structure Trial where
  reward : ℚ
  termination : String
  toolCallCount : ℕ
  missingTools : List String
  failedEnvAssertions : List String
  rewardBreakdown : List (String × ℚ)
  toolArgsErrCnt : ℕ

/-- The pass flag of a trial: generate_report computes is_pass from the
reward alone (line 1909); no other field enters the computation. -/
def trialPassFlag (t : Trial) : ℕ := isPassFlag t.reward

/-- Early-termination flag from create_runs_sheet (line 1118):
"Y" if term not in {"agent_stop", "user_stop"} else "N". -/
def earlyTermFlag (term : String) : String :=
  if term = "agent_stop" ∨ term = "user_stop" then "N" else "Y"

/-- Modelled from the spec: the simulation orchestrator, which is part of
this repository but not under src/, assigns reward 0 to every trial whose
termination reason is outside the normal-evaluation set
{agent_stop, user_stop} (spec section 4.3: an early termination "by
construction always carries reward 0"). -/
def EarlyTerminationRewardZero (t : Trial) : Prop :=
  earlyTermFlag t.termination = "Y" → t.reward = 0

/-- First index at which pat occurs as a contiguous sublist of the second
argument, the model of Python substring search (str.find / the in operator). -/
def findSub (pat : List Char) : List Char → Option ℕ
  | [] => if pat.isEmpty then some 0 else none
  | c :: t =>
    if pat.isPrefixOf (c :: t) then some 0
    else (findSub pat t).map (fun i => i + 1)

/-- Model of the Python substring test: pat in s. -/
def strContains (s pat : String) : Bool :=
  (findSub pat.toList s.toList).isSome

/-- Model of the normalisation termination = termination or "n/a" at the top
of _make_fail_reason (line 173): Python or replaces a falsy (empty) string. -/
def failTermNorm (termination : String) : String :=
  if termination = "" then "n/a" else termination

/-- Failure-taxonomy tag of _make_fail_reason
(generate_excel_report.py lines 180-194).  The function also renders a
one-line and a detailed explanation string; those are presentation and the
tag component is embedded here as written, with Python substring tests on
the termination reason. -/
def makeFailTag (passFlag : ℕ) (termination : String)
    (missingTools failedEnvAssertions : List String)
    (toolArgsErrCnt : ℕ) : String :=
  let term := failTermNorm termination
  if passFlag = 1 then "-"
  else if 0 < toolArgsErrCnt then "Tool misuse / Schema mismatch"
  else if missingTools ≠ [] then "Tool misuse / Missing required actions"
  else if failedEnvAssertions ≠ [] then "Reasoning/Planning / Env assertion failed"
  else if strContains term ("too_many_errors") then "Infra/API / Too many errors"
  else if strContains term ("max_steps") || strContains term ("max_turns") then
    "Loop/timeout / Max steps"
  else "Unknown"

/-- Excel COMBIN: errors (#NUM!, modelled as none) when number < number_chosen;
otherwise the binomial coefficient. -/
def excelCombin (n k : ℕ) : Option ℚ :=
  if n < k then none else some (n.choose k : ℚ)

/-- Excel division: #DIV/0! (modelled as none) on a zero denominator. -/
def excelDiv (a b : ℚ) : Option ℚ :=
  if b = 0 then none else some (a / b)

/-- Pass@1 cell of create_task_summary_sheet (line 567):
IF(n<1,"",IFERROR(c/n,"")), blank modelled as none. -/
def passAt1 (n c : ℕ) : Option ℚ :=
  if n < 1 then none else excelDiv (c : ℚ) (n : ℚ)

/-- Pass@2 cell of create_task_summary_sheet (line 571):
IF(n<2,"",IFERROR(COMBIN(c,2)/COMBIN(n,2),"")). -/
def passAt2 (n c : ℕ) : Option ℚ :=
  if n < 2 then none
  else (excelCombin c 2).bind fun a => (excelCombin n 2).bind fun b => excelDiv a b

/-- Pass@4 cell of create_task_summary_sheet (line 575):
IF(n<4,"",IFERROR(COMBIN(c,4)/COMBIN(n,4),"")). -/
def passAt4 (n c : ℕ) : Option ℚ :=
  if n < 4 then none
  else (excelCombin c 4).bind fun a => (excelCombin n 4).bind fun b => excelDiv a b

/-- The three Pass@k columns of the task-summary sheet as one dispatcher;
only k = 1, 2, 4 exist in the sheet. -/
def passAtK (n c k : ℕ) : Option ℚ :=
  if k = 1 then passAt1 n c
  else if k = 2 then passAt2 n c
  else if k = 4 then passAt4 n c
  else none

/-- Ranking key of create_summary_sheet (line 820):
N(C)*1000000 + N(D)*1000 + N(E) + ROW()/1000000000, with C, D, E the
Pass@1, Pass@2, Pass@4 cells of the model row. -/
def rankKey (p1 p2 p4 row : ℚ) : ℚ :=
  p1 * 1000000 + p2 * 1000 + p4 + row / 1000000000

/-- Rank formula of create_summary_sheet (line 839):
1 + SUMPRODUCT(--(keys > key)), the count of strictly larger keys plus one. -/
def rankOf (keys : List ℚ) (k : ℚ) : ℕ :=
  1 + (keys.filter (fun x => decide (k < x))).length

/-- The left-brace character. -/
def lbrace : Char := Char.ofNat 123

/-- The right-brace character. -/
def rbrace : Char := Char.ofNat 125

/-- The single-quote character. -/
def sq : Char := Char.ofNat 39

/-- The double-quote character. -/
def dq : Char := Char.ofNat 34

/-- The backslash character. -/
def bslash : Char := Char.ofNat 92

/-- A one-character string holding a single quote. -/
def sqs : String := String.mk [sq]

/-- A one-character string holding a double quote. -/
def dqs : String := String.mk [dq]

/-- Values produced by json.loads and ast.literal_eval, as far as the
argument-recovery code consumes them.  Mapping keys are restricted to
strings (always true for JSON; the recovery paths exercised here never
build non-string Python dict keys).  Python tuples are modelled as arrays.
Number exponents, hex literals and unicode escapes are outside the model;
no claim depends on them. -/
inductive JVal where
  | jnull
  | jbool (b : Bool)
  | jnum (q : Rat)
  | jstr (s : String)
  | jarr (items : List JVal)
  | jobj (fields : List (String × JVal))

/-- Whitespace skipped between JSON / Python-literal tokens. -/
def skipWs (cs : List Char) : List Char :=
  cs.dropWhile (fun c => c = ' ' || c = Char.ofNat 10 || c = Char.ofNat 9 || c = Char.ofNat 13)

/-- Whitespace stripped by Python str.strip (ASCII part). -/
def isPyWs (c : Char) : Bool :=
  c = ' ' || c = Char.ofNat 10 || c = Char.ofNat 9 || c = Char.ofNat 13
    || c = Char.ofNat 11 || c = Char.ofNat 12

/-- Model of Python str.strip(). -/
def pyStrip (s : String) : String :=
  String.mk (((s.toList.dropWhile isPyWs).reverse.dropWhile isPyWs).reverse)

/-- Model of Python str.lower() on the ASCII range. -/
def pyLower (s : String) : String :=
  String.mk (s.toList.map (fun c =>
    if 'A' ≤ c && c ≤ 'Z' then Char.ofNat (c.toNat + 32) else c))

/-- Model of the Python slice s[:n]. -/
def pyTake (s : String) (n : Nat) : String :=
  String.mk (s.toList.take n)

/-- Python startswith("\x7b"). -/
def startsWithLbrace (s : String) : Bool :=
  match s.toList with
  | c :: _ => c = lbrace
  | [] => false

/-- Common escape sequences inside string literals; unicode escapes are not
modelled. -/
def unescapeChar (e : Char) : Char :=
  if e = 'n' then Char.ofNat 10
  else if e = 't' then Char.ofNat 9
  else if e = 'r' then Char.ofNat 13
  else if e = 'b' then Char.ofNat 8
  else if e = 'f' then Char.ofNat 12
  else e

/-- Body of a string literal opened with quote q: the decoded characters and
the remaining input after the closing quote. -/
def parseStrChars (q : Char) : List Char → Option (List Char × List Char)
  | [] => none
  | c :: rest =>
    if c = q then some ([], rest)
    else if c = bslash then
      match rest with
      | [] => none
      | e :: rest2 =>
        match parseStrChars q rest2 with
        | some (s, r) => some (unescapeChar e :: s, r)
        | none => none
    else
      match parseStrChars q rest with
      | some (s, r) => some (c :: s, r)
      | none => none

/-- Decimal digits to a natural number. -/
def digitsToNat (ds : List Char) : Nat :=
  ds.foldl (fun acc d => acc * 10 + (d.toNat - 48)) 0

/-- Integer or decimal number literal (shared by the JSON and Python-literal
grammars; exponents are outside the model). -/
def parseNum (cs : List Char) : Option (JVal × List Char) :=
  let signed := match cs with
    | '-' :: t => (true, t)
    | t => (false, t)
  let neg := signed.1
  let cs1 := signed.2
  let ip := cs1.takeWhile Char.isDigit
  let cs2 := cs1.dropWhile Char.isDigit
  if ip.isEmpty then none
  else
    let intVal : Rat := (digitsToNat ip : Rat)
    match cs2 with
    | '.' :: t =>
      let fp := t.takeWhile Char.isDigit
      let cs3 := t.dropWhile Char.isDigit
      if fp.isEmpty then none
      else
        let v : Rat := intVal + (digitsToNat fp : Rat) / ((10 : Rat) ^ fp.length)
        some (.jnum (if neg then -v else v), cs3)
    | _ => some (.jnum (if neg then -intVal else intVal), cs2)

/-- Consume a fixed keyword token and return the rest of the input. -/
def stripTok (tok : String) (cs : List Char) : Option (List Char) :=
  if tok.toList.isPrefixOf cs then some (cs.drop tok.length) else none

mutual

/-- One value of the JSON grammar (py = false: json.loads) or of the
Python-literal grammar (py = true: ast.literal_eval, which additionally
allows single-quoted strings, True/False/None, tuples and trailing
commas).  Fuel-indexed; the callers pass input length + 1, which one
consumed character per recursion step makes sufficient. -/
def parseVal (py : Bool) : Nat → List Char → Option (JVal × List Char)
  | 0, _ => none
  | fuel + 1, cs0 =>
    match skipWs cs0 with
    | [] => none
    | c :: rest =>
      if c = dq || (py && c = sq) then
        match parseStrChars c rest with
        | some (sc, r) => some (.jstr (String.mk sc), r)
        | none => none
      else if c = lbrace then
        match skipWs rest with
        | c2 :: r =>
          if c2 = rbrace then some (.jobj [], r)
          else
            match parseMembers py fuel (c2 :: r) with
            | some (ms, r2) => some (.jobj ms, r2)
            | none => none
        | [] => none
      else if c = '[' then
        match skipWs rest with
        | ']' :: r => some (.jarr [], r)
        | rest2 =>
          match parseItems py ']' fuel rest2 with
          | some (vs, r2) => some (.jarr vs, r2)
          | none => none
      else if py && c = '(' then
        match skipWs rest with
        | ')' :: r => some (.jarr [], r)
        | rest2 =>
          match parseItems py ')' fuel rest2 with
          | some (vs, r2) => some (.jarr vs, r2)
          | none => none
      else if c.isDigit || c = '-' then
        parseNum (c :: rest)
      else if py then
        match stripTok ("True") (c :: rest) with
        | some r => some (.jbool true, r)
        | none =>
          match stripTok ("False") (c :: rest) with
          | some r => some (.jbool false, r)
          | none =>
            match stripTok ("None") (c :: rest) with
            | some r => some (.jnull, r)
            | none => none
      else
        match stripTok ("true") (c :: rest) with
        | some r => some (.jbool true, r)
        | none =>
          match stripTok ("false") (c :: rest) with
          | some r => some (.jbool false, r)
          | none =>
            match stripTok ("null") (c :: rest) with
            | some r => some (.jnull, r)
            | none => none

/-- The members of an object after the opening brace (keys are string
literals; Python additionally tolerates a trailing comma). -/
def parseMembers (py : Bool) : Nat → List Char → Option (List (String × JVal) × List Char)
  | 0, _ => none
  | fuel + 1, cs0 =>
    match skipWs cs0 with
    | [] => none
    | c :: rest =>
      if c = dq || (py && c = sq) then
        match parseStrChars c rest with
        | some (kc, r1) =>
          match skipWs r1 with
          | ':' :: r2 =>
            match parseVal py fuel r2 with
            | some (v, r3) =>
              match skipWs r3 with
              | c4 :: r4 =>
                if c4 = rbrace then some ([(String.mk kc, v)], r4)
                else if c4 = ',' then
                  match skipWs r4 with
                  | c5 :: r5 =>
                    if c5 = rbrace then
                      if py then some ([(String.mk kc, v)], r5) else none
                    else
                      match parseMembers py fuel (c5 :: r5) with
                      | some (ms, r6) => some ((String.mk kc, v) :: ms, r6)
                      | none => none
                  | [] => none
                else none
              | [] => none
            | none => none
          | _ => none
        | none => none
      else none

/-- The items of an array (or Python tuple) after the opening bracket. -/
def parseItems (py : Bool) (close : Char) : Nat → List Char → Option (List JVal × List Char)
  | 0, _ => none
  | fuel + 1, cs0 =>
    match parseVal py fuel cs0 with
    | some (v, r1) =>
      match skipWs r1 with
      | c2 :: r2 =>
        if c2 = close then some ([v], r2)
        else if c2 = ',' then
          match skipWs r2 with
          | c3 :: r3 =>
            if c3 = close then
              if py then some ([v], r3) else none
            else
              match parseItems py close fuel (c3 :: r3) with
              | some (vs, r4) => some (v :: vs, r4)
              | none => none
          | [] => none
        else none
      | [] => none
    | none => none

end

/-- Model of json.loads: a single strict-JSON value with only whitespace
around it; anything else is a parse error (none). -/
def jsonLoads (s : String) : Option JVal :=
  match parseVal false (s.length + 1) s.toList with
  | some (v, rest) => if (skipWs rest).isEmpty then some v else none
  | none => none

/-- Model of ast.literal_eval on the literal forms the recovery chain relies
on (single-quoted strings, dicts, lists, tuples, numbers, True/False/None,
trailing commas). -/
def literalEval (s : String) : Option JVal :=
  match parseVal true (s.length + 1) s.toList with
  | some (v, rest) => if (skipWs rest).isEmpty then some v else none
  | none => none

/-- The shapes a raw tool-call arguments payload takes at the entry of
_safe_parse_tool_arguments: Python None, an already-parsed dict, or a
string (any other value is piped through str() by the source; the string
case covers it). -/
inductive RawArg where
  | pynone
  | pydict (d : List (String × JVal))
  | pystr (s : String)

/-- Wrapping rule shared by the three parse steps of
_safe_parse_tool_arguments: parsed if isinstance(parsed, dict) else
a dict carrying the value under the key _args. -/
def wrapParsed (v : JVal) : List (String × JVal) :=
  match v with
  | .jobj fields => fields
  | other => [("_args", other)]

/-- The emptiness test of _safe_parse_tool_arguments (line 292):
s == "" or s.lower() in a set holding null and none. -/
def isNullLike (s : String) : Bool :=
  s = "" || pyLower s = "null" || pyLower s = "none"

/-- _safe_parse_tool_arguments of src/tau2/utils/llm_utils.py (lines
278-324): None and dict pass through, empty/null-like strings give an
empty dict, then strict JSON, then a Python-literal parse, then the
heuristic that wraps bare key:value text in braces, and an empty dict as
the last resort.  Non-dict parse results are wrapped under _args.  The
function is total: it never fails, it always returns a mapping. -/
def safeParseToolArguments (raw : RawArg) : List (String × JVal) :=
  match raw with
  | .pynone => []
  | .pydict d => d
  | .pystr raw0 =>
    let s := pyStrip raw0
    if isNullLike s then []
    else
      match jsonLoads s with
      | some parsed => wrapParsed parsed
      | none =>
        match literalEval s with
        | some parsed => wrapParsed parsed
        | none =>
          if !(startsWithLbrace s) && strContains s (":") then
            match jsonLoads ("\x7b" ++ s ++ "\x7d") with
            | some parsed => wrapParsed parsed
            | none => []
          else []

/-- One raw tool call as read from raw_data.message.tool_calls by the
report generator: the function name and the untouched arguments payload. -/
structure RawFunctionCall where
  name : String
  arguments : RawArg

/-- One entry of the tool-args health ledger built by
_extract_tool_args_json_errors: inferred tool name, error kind and the
truncated raw excerpt. -/
structure ErrRec where
  tool : String
  error : String
  raw : Option String

/-- The per-call classification inside the loop of
_extract_tool_args_json_errors (generate_excel_report.py lines 344-379):
a None payload, an empty/null-like string, or a string rejected by a
strict json.loads produce one ledger entry; a dict or a string accepted
by strict JSON produce none.  The Python exception message interpolated
into the error string is elided; the raw excerpt keeps the s[:500]
truncation. -/
def toolArgErrsOfCall (func : RawFunctionCall) : List ErrRec :=
  match func.arguments with
  | .pynone => [⟨func.name, "arguments is None", none⟩]
  | .pydict _ => []
  | .pystr a =>
    let s := pyStrip a
    if isNullLike s then [⟨func.name, "arguments empty", some s⟩]
    else
      match jsonLoads s with
      | some _ => []
      | none => [⟨func.name, "invalid JSON", some (pyTake s 500)⟩]

/-- One transcript message as far as _extract_tool_args_json_errors reads
it: the role and the tool calls found under raw_data.message.tool_calls
(empty when absent or of an unexpected shape, matching the isinstance
guards of the source). -/
structure RawMsg where
  role : String
  rawToolCalls : List RawFunctionCall

/-- The ledger of _extract_tool_args_json_errors over a message list:
assistant messages only, every raw tool call classified in order. -/
def extractToolArgsJsonErrors (msgs : List RawMsg) : List ErrRec :=
  msgs.flatMap (fun m =>
    if m.role = "assistant" then m.rawToolCalls.flatMap toolArgErrsOfCall else [])

/-- The human-readable digest built by _extract_tool_args_json_errors
(lines 384-392): first six entries as tool: error joined by semicolons,
with a +N more suffix beyond six. -/
def toolArgsErrorSummary (errs : List ErrRec) : String :=
  if errs.isEmpty then ""
  else
    let parts := (errs.take 6).map (fun e =>
      (if e.tool = "" then "unknown_tool" else e.tool) ++ ": " ++
        (if e.error = "" then "error" else e.error))
    let s := String.intercalate ("; ") parts
    if 6 < errs.length then
      s ++ " (+" ++ toString (errs.length - 6) ++ " more)"
    else s

/-- Python str.find(sub, start): first occurrence index at or after start. -/
def findSubFrom (pat s : List Char) (start : Nat) : Option Nat :=
  (findSub pat (s.drop start)).map (fun i => i + start)

/-- The brace-matching scan of _parse_text_tool_call (llm_utils.py lines
344-354): walking the characters from the first brace, counting depth,
returning the length of the slice that closes the first brace (note the
source counts braces inside string literals too; the model does the
same). -/
def scanBraces : List Char → Int → Nat → Option Nat
  | [], _, _ => none
  | c :: rest, depth, count =>
    if c = lbrace then scanBraces rest (depth + 1) (count + 1)
    else if c = rbrace then
      if depth - 1 = 0 then some (count + 1)
      else scanBraces rest (depth - 1) (count + 1)
    else scanBraces rest depth (count + 1)

/-- _parse_text_tool_call of llm_utils.py (lines 327-362): requires the
TOOL_CALLS marker, then an ARGS marker, a non-empty stripped tool name
between them, and takes the brace-balanced slice from the first brace
after ARGS as the JSON arguments; a missing brace, an unbalanced slice or
a failed JSON parse degrade to an empty dict (the balanced slice starts
with a brace, so a successful strict parse is always an object). -/
def parseTextToolCall (content : String) : Option (String × List (String × JVal)) :=
  match findSub (("[TOOL_CALLS").toList) content.toList with
  | none => none
  | some i =>
    let start := i + ("[TOOL_CALLS").length
    match findSubFrom (("[ARGS").toList) content.toList start with
    | none => none
    | some argsIdx =>
      let toolName := pyStrip (String.mk ((content.toList.drop start).take (argsIdx - start)))
      if toolName = "" then none
      else
        match findSubFrom [lbrace] content.toList argsIdx with
        | none => some (toolName, [])
        | some jsonStart =>
          match scanBraces (content.toList.drop jsonStart) 0 0 with
          | none => some (toolName, [])
          | some len =>
            match jsonLoads (String.mk ((content.toList.drop jsonStart).take len)) with
            | some (.jobj fields) => some (toolName, fields)
            | _ => some (toolName, [])

/-- The post-processing of generate (llm_utils.py lines 249-275) after the
structured tool calls are parsed: an empty list becomes None
(tool_calls or None), and when no structured call exists and the content
is a string, a text tool call parsed from the content replaces it, with
the content set to None to enforce the tool-call-or-content rule;
otherwise content and tool calls pass through. -/
def generatePost (content : Option String)
    (parsedToolCalls : List (String × List (String × JVal))) :
    Option String × Option (List (String × List (String × JVal))) :=
  let toolCalls : Option (List (String × List (String × JVal))) :=
    if parsedToolCalls.isEmpty then none else some parsedToolCalls
  match toolCalls, content with
  | none, some c =>
    match parseTextToolCall c with
    | some (n, a) => (none, some [(n, a)])
    | none => (some c, none)
  | tc, cont => (cont, tc)

/-- The Python-literal payload of the spec scenario for the permissive
path, the 8-character string with a single-quoted key and value 1. -/
def pyDictLit : String := "\x7b" ++ sqs ++ "a" ++ sqs ++ ": 1\x7d"

/-- A provider text payload carrying a tool call in the textual
TOOL_CALLS format with one integer argument. -/
def sampleToolText : String :=
  "[TOOL_CALLSget_user[ARGS\x7b" ++ dqs ++ "id" ++ dqs ++ ": 1\x7d tail"


/-- C1: a trial passes iff its final reward is within absolute tolerance
1e-6 of 1.0; the flag is a function of the reward alone, so no other field
of the trial affects it; reward exactly 1.0 passes and reward 0.999 fails,
whatever the remaining fields are. -/
theorem C1_pass_rule (t u : Trial) (h : t.reward = u.reward) :
    (trialPassFlag t = 1 ↔ |t.reward - 1| ≤ 1 / 1000000)
    ∧ trialPassFlag t = trialPassFlag u
    ∧ trialPassFlag { t with reward := 1 } = 1
    ∧ trialPassFlag { t with reward := 999 / 1000 } = 0 := by
  refine ⟨?_, ?_, ?_, ?_⟩
  · by_cases hP : |t.reward - 1| ≤ 1 / 1000000 <;>
      simp [trialPassFlag, isPassFlag, hP]
  · unfold trialPassFlag
    rw [h]
  · show isPassFlag 1 = 1
    have hle : |(1 : ℚ) - 1| ≤ 1 / 1000000 := by
      rw [sub_self, abs_zero]
      norm_num
    rw [isPassFlag, if_pos hle]
  · show isPassFlag (999 / 1000) = 0
    have hgt : ¬ (|(999 : ℚ) / 1000 - 1| ≤ 1 / 1000000) := by
      rw [show (999 : ℚ) / 1000 - 1 = -(1 / 1000) by norm_num, abs_neg,
        abs_of_nonneg (by norm_num : (0 : ℚ) ≤ 1 / 1000)]
      norm_num
    rw [isPassFlag, if_neg hgt]

/-- Witness for C1 at a concrete trial with reward 1. -/
theorem C1_pass_rule_witness :
    trialPassFlag ⟨1, "agent_stop", 2, [], [], [], 0⟩ = 1 :=
  (C1_pass_rule ⟨1, "agent_stop", 2, [], [], [], 0⟩
    ⟨1, "agent_stop", 2, [], [], [], 0⟩ rfl).1.mpr (by norm_num)

/-- C4: a trial whose termination reason is outside {agent_stop, user_stop}
(the early-termination flag of the runs sheet is "Y") always gets pass
flag 0, given the spec-modelled runtime invariant that early-terminated
trials carry reward 0. -/
theorem C4_early_term_fails (t : Trial) (hspec : EarlyTerminationRewardZero t)
    (h1 : t.termination ≠ "agent_stop") (h2 : t.termination ≠ "user_stop") :
    trialPassFlag t = 0 := by
  have hflag : earlyTermFlag t.termination = "Y" := by
    unfold earlyTermFlag
    rw [if_neg]
    rintro (h | h)
    · exact h1 h
    · exact h2 h
  have hr : t.reward = 0 := hspec hflag
  show isPassFlag t.reward = 0
  rw [hr]
  have hgt : ¬ (|(0 : ℚ) - 1| ≤ 1 / 1000000) := by
    rw [zero_sub, abs_neg, abs_one]
    norm_num
  rw [isPassFlag, if_neg hgt]

/-- Witness for C4 at a concrete early-terminated trial. -/
theorem C4_early_term_fails_witness :
    trialPassFlag ⟨0, "max_steps", 0, [], [], [], 0⟩ = 0 :=
  C4_early_term_fails ⟨0, "max_steps", 0, [], [], [], 0⟩
    (fun _ => rfl) (by decide) (by decide)

/-- C3: on a failing trial the taxonomy tag follows the exact first-match
precedence of _make_fail_reason: argument-recovery errors, then missing
required tools, then failed environment assertions, then a
too_many_errors termination, then a max_steps or max_turns termination,
else Unknown; in particular a trial with both a recovery error and a
missing required tool is tagged Tool misuse / Schema mismatch. -/
theorem C3_fail_taxonomy (term : String) (missing envFail : List String) (errCnt : ℕ) :
    (0 < errCnt →
      makeFailTag 0 term missing envFail errCnt = "Tool misuse / Schema mismatch")
    ∧ (errCnt = 0 → missing ≠ [] →
      makeFailTag 0 term missing envFail errCnt = "Tool misuse / Missing required actions")
    ∧ (errCnt = 0 → missing = [] → envFail ≠ [] →
      makeFailTag 0 term missing envFail errCnt = "Reasoning/Planning / Env assertion failed")
    ∧ (errCnt = 0 → missing = [] → envFail = [] →
      strContains (failTermNorm term) "too_many_errors" = true →
      makeFailTag 0 term missing envFail errCnt = "Infra/API / Too many errors")
    ∧ (errCnt = 0 → missing = [] → envFail = [] →
      strContains (failTermNorm term) "too_many_errors" = false →
      (strContains (failTermNorm term) "max_steps"
        || strContains (failTermNorm term) "max_turns") = true →
      makeFailTag 0 term missing envFail errCnt = "Loop/timeout / Max steps")
    ∧ (errCnt = 0 → missing = [] → envFail = [] →
      strContains (failTermNorm term) "too_many_errors" = false →
      strContains (failTermNorm term) "max_steps" = false →
      strContains (failTermNorm term) "max_turns" = false →
      makeFailTag 0 term missing envFail errCnt = "Unknown")
    ∧ (0 < errCnt → missing ≠ [] →
      makeFailTag 0 term missing envFail errCnt = "Tool misuse / Schema mismatch") := by
  refine ⟨?_, ?_, ?_, ?_, ?_, ?_, ?_⟩ <;> intros <;> simp_all [makeFailTag]

/-- Witness for C3: a trial with both a recovery error and a missing tool
is tagged Schema mismatch, and a max_steps termination with no other
signal is tagged Max steps. -/
theorem C3_fail_taxonomy_witness :
    makeFailTag 0 ("agent_stop") ["transfer_to_human"] [] 3
      = "Tool misuse / Schema mismatch"
    ∧ makeFailTag 0 ("max_steps") [] [] 0 = "Loop/timeout / Max steps" :=
  ⟨(C3_fail_taxonomy ("agent_stop") ["transfer_to_human"] [] 3).2.2.2.2.2.2
      (by decide) (by decide),
   (C3_fail_taxonomy ("max_steps") [] [] 0).2.2.2.2.1 rfl rfl rfl
      (by decide) (by decide)⟩

/-- C2 counterexample: for n = 4 trials with c = 2 successes, the Pass@4
cell is blank (insufficient-sample rendering), not the defined value 0
the claim requires: Excel COMBIN(2,4) is a #NUM! error and the IFERROR
wrapper maps it to the blank used for insufficient samples. -/
theorem C2_counterexample :
    passAtK 4 2 4 = none ∧ ¬ passAtK 4 2 4 = some 0 := by
  refine ⟨rfl, ?_⟩
  intro h
  rw [show passAtK 4 2 4 = none from rfl] at h
  exact Option.noConfusion h

/-- C2 amended: for k in {1,2,4}, the Pass@k cell is defined iff n ≥ k and
additionally (for k = 2 and k = 4) c ≥ k, in which case it equals
C(c,k)/C(n,k); with k = 1 this is the plain success rate c / n.  When
n ≥ k but 0 < c < k the cell is blank exactly like the insufficient-sample
case, instead of the exact 0 stated by the claim. -/
theorem C2_passk_amended (n c k : ℕ) (hk : k = 1 ∨ k = 2 ∨ k = 4) (v : ℚ) :
    passAtK n c k = some v ↔
      (k ≤ n ∧ (k = 1 ∨ k ≤ c) ∧ v = (c.choose k : ℚ) / (n.choose k : ℚ)) := by
  rcases hk with hk | hk | hk <;> subst hk
  · by_cases hn : n < 1
    · simp [passAtK, passAt1, hn, show ¬ (1 ≤ n) from by omega]
    · have hnq : ((n : ℚ)) ≠ 0 := by
        exact_mod_cast (by omega : n ≠ 0)
      simp [passAtK, passAt1, excelDiv, hn, hnq, Nat.choose_one_right,
        show 1 ≤ n from by omega, eq_comm]
  · by_cases hn : n < 2
    · simp [passAtK, passAt2, hn, show ¬ (2 ≤ n) from by omega]
    · by_cases hc : c < 2
      · simp [passAtK, passAt2, excelCombin, hn, hc,
          show ¬ (2 ≤ c) from by omega]
      · have hnq : ((n.choose 2 : ℚ)) ≠ 0 := by
          have := Nat.choose_pos (show 2 ≤ n from by omega)
          exact_mod_cast this.ne'
        simp [passAtK, passAt2, excelCombin, excelDiv, hn, hc, hnq,
          show 2 ≤ n from by omega, show 2 ≤ c from by omega, eq_comm]
  · by_cases hn : n < 4
    · simp [passAtK, passAt4, hn, show ¬ (4 ≤ n) from by omega]
    · by_cases hc : c < 4
      · simp [passAtK, passAt4, excelCombin, hn, hc,
          show ¬ (4 ≤ c) from by omega]
      · have hnq : ((n.choose 4 : ℚ)) ≠ 0 := by
          have := Nat.choose_pos (show 4 ≤ n from by omega)
          exact_mod_cast this.ne'
        simp [passAtK, passAt4, excelCombin, excelDiv, hn, hc, hnq,
          show 4 ≤ n from by omega, show 4 ≤ c from by omega, eq_comm]

/-- Witness for the amended C2: n = 4, c = 2 gives Pass@2 = 1/6. -/
theorem C2_passk_amended_witness : passAtK 4 2 2 = some (1 / 6) :=
  (C2_passk_amended 4 2 2 (Or.inr (Or.inl rfl)) (1 / 6)).mpr
    ⟨by norm_num, Or.inr (by norm_num),
     by norm_num [show Nat.choose 2 2 = 1 from rfl, show Nat.choose 4 2 = 6 from rfl]⟩

/-- C8 counterexample: the ranking key is a weighted sum, not lexicographic
on (Pass@1, Pass@2, Pass@4): model A with Pass@1 = 0.5005 and Pass@2 = 0
gets a smaller key than model B with the smaller Pass@1 = 0.5 but
Pass@2 = 1, so B outranks A (rank 1 versus rank 2) although A leads on
Pass@1. -/
theorem C8_counterexample :
    ((1 : ℚ) / 2 < 5005 / 10000)
    ∧ rankKey (5005 / 10000) 0 0 10 < rankKey (1 / 2) 1 0 11
    ∧ rankOf [rankKey (5005 / 10000) 0 0 10, rankKey (1 / 2) 1 0 11]
        (rankKey (1 / 2) 1 0 11) = 1
    ∧ rankOf [rankKey (5005 / 10000) 0 0 10, rankKey (1 / 2) 1 0 11]
        (rankKey (5005 / 10000) 0 0 10) = 2 := by
  refine ⟨by norm_num, by norm_num [rankKey], ?_, ?_⟩ <;>
    norm_num [rankOf, rankKey, List.filter]

/-- C8 amended: with Pass@k values in [0,1] and sheet rows at most 10^6,
the weighted key orders by Pass@1 once the Pass@1 lead is at least
1002/10^6 (smaller leads can be overridden by lower-priority terms), by
Pass@2 under an equal Pass@1 and a Pass@2 lead of at least 1002/10^6,
and by Pass@4 likewise; on an exact tie of all three values the key order
is exactly the row order (the later row ranks first), a deterministic
tie-break, so identical data is never reordered. -/
theorem C8_rank_amended (p1a p2a p4a p1b p2b p4b rowa rowb : ℚ)
    (h2a0 : 0 ≤ p2a) (h2a1 : p2a ≤ 1) (h2b0 : 0 ≤ p2b) (h2b1 : p2b ≤ 1)
    (h4a0 : 0 ≤ p4a) (h4a1 : p4a ≤ 1) (h4b0 : 0 ≤ p4b) (h4b1 : p4b ≤ 1)
    (hra0 : 0 ≤ rowa) (hra1 : rowa ≤ 1000000)
    (hrb0 : 0 ≤ rowb) (hrb1 : rowb ≤ 1000000) :
    (p1b + 1002 / 1000000 ≤ p1a →
      rankKey p1b p2b p4b rowb < rankKey p1a p2a p4a rowa)
    ∧ (p1a = p1b → p2b + 1002 / 1000000 ≤ p2a →
      rankKey p1b p2b p4b rowb < rankKey p1a p2a p4a rowa)
    ∧ (p1a = p1b → p2a = p2b → p4b + 1002 / 1000000 ≤ p4a →
      rankKey p1b p2b p4b rowb < rankKey p1a p2a p4a rowa)
    ∧ (p1a = p1b → p2a = p2b → p4a = p4b →
      (rankKey p1b p2b p4b rowb < rankKey p1a p2a p4a rowa ↔ rowb < rowa)) := by
  refine ⟨?_, ?_, ?_, ?_⟩
  · intro h
    unfold rankKey
    linarith
  · intro he h
    unfold rankKey
    linarith
  · intro he1 he2 h
    unfold rankKey
    linarith
  · intro he1 he2 he3
    unfold rankKey
    constructor
    · intro h
      by_contra hc
      push_neg at hc
      have : rowa / 1000000000 ≤ rowb / 1000000000 := by linarith
      linarith
    · intro h
      have : rowb / 1000000000 < rowa / 1000000000 := by linarith
      linarith

/-- Witness for the amended C8: a Pass@1 lead of 0.5 decides the order. -/
theorem C8_rank_amended_witness :
    rankKey 0 1 1 (1000000 : ℚ) < rankKey (1 / 2) 0 0 1 :=
  (C8_rank_amended (1 / 2) 0 0 0 1 1 1 (1000000 : ℚ)
      (by norm_num) (by norm_num) (by norm_num) (by norm_num)
      (by norm_num) (by norm_num) (by norm_num) (by norm_num)
      (by norm_num) (by norm_num) (by norm_num) (by norm_num)).1
    (by norm_num)

/-- C9: argument recovery is idempotent: an input that is already a mapping
is returned unchanged, and since every output is a mapping, feeding any
output back into recovery returns it unchanged. -/
theorem C9_recover_idempotent :
    (∀ d, safeParseToolArguments (RawArg.pydict d) = d)
    ∧ ∀ raw, safeParseToolArguments (RawArg.pydict (safeParseToolArguments raw))
        = safeParseToolArguments raw :=
  ⟨fun _ => rfl, fun _ => rfl⟩

/-- C5: argument recovery is a total function into mappings (so it cannot
raise), None and empty/null-like strings (any letter case, after
stripping) give the empty mapping, an already-parsed mapping passes
through, a successfully parsed non-object JSON value is wrapped under the
key _args (shown on the claim's array example), and malformed JSON
degrades to the empty mapping. -/
theorem C5_recovery_total (d : List (String × JVal)) (s : String) (v : JVal)
    (hnull : isNullLike (pyStrip s) = false)
    (hjson : jsonLoads (pyStrip s) = some v)
    (hnotobj : ∀ f, v ≠ JVal.jobj f) :
    safeParseToolArguments RawArg.pynone = []
    ∧ safeParseToolArguments (RawArg.pydict d) = d
    ∧ (∀ s2, isNullLike (pyStrip s2) = true →
        safeParseToolArguments (RawArg.pystr s2) = [])
    ∧ safeParseToolArguments (RawArg.pystr s) = [("_args", v)]
    ∧ safeParseToolArguments (RawArg.pystr ("[1, 2]"))
        = [("_args", JVal.jarr [JVal.jnum 1, JVal.jnum 2])]
    ∧ safeParseToolArguments (RawArg.pystr ("\x7boops")) = []
    ∧ safeParseToolArguments (RawArg.pystr ("NONE")) = [] := by
  refine ⟨rfl, rfl, ?_, ?_, rfl, rfl, rfl⟩
  · intro s2 h2
    simp [safeParseToolArguments, h2]
  · simp only [safeParseToolArguments, hnull, Bool.false_eq_true, if_false, hjson]
    cases v with
    | jobj f => exact absurd rfl (hnotobj f)
    | jnull => rfl
    | jbool b => rfl
    | jnum q => rfl
    | jstr t => rfl
    | jarr l => rfl

/-- Witness for C5: the valid JSON array text is wrapped under _args. -/
theorem C5_recovery_total_witness :
    safeParseToolArguments (RawArg.pystr ("[3]"))
      = [("_args", JVal.jarr [JVal.jnum 3])] :=
  (C5_recovery_total [] ("[3]") (JVal.jarr [JVal.jnum 3]) rfl rfl
    (fun f h => JVal.noConfusion h)).2.2.2.1

/-- C6 counterexample: the claim's bare key:value input (unquoted key)
recovers to the empty mapping, not to a mapping with key status: the
heuristic wrap produces text with an unquoted key, which the strict JSON
retry rejects. -/
theorem C6_counterexample :
    safeParseToolArguments (RawArg.pystr ("status: " ++ dqs ++ "ok" ++ dqs)) = []
    ∧ safeParseToolArguments (RawArg.pystr ("status: " ++ dqs ++ "ok" ++ dqs))
        ≠ [("status", JVal.jstr "ok")] := by
  refine ⟨rfl, ?_⟩
  intro h
  rw [show safeParseToolArguments (RawArg.pystr ("status: " ++ dqs ++ "ok" ++ dqs)) = []
    from rfl] at h
  exact List.noConfusion h

/-- C6 amended: the heuristic-wrap path does recover a brace-less
key:value payload when the key is a quoted JSON string: the input
consisting of a double-quoted status key, a colon and a double-quoted ok
recovers to the singleton mapping. -/
theorem C6_heuristic_amended :
    safeParseToolArguments
      (RawArg.pystr (dqs ++ "status" ++ dqs ++ ": " ++ dqs ++ "ok" ++ dqs))
      = [("status", JVal.jstr "ok")] := rfl

/-- C7 counterexample: the Python-literal payload with a single-quoted key
is recovered successfully by the permissive-literal path, yet the health
ledger of the report generator still records an invalid-JSON entry for
it, because that ledger reruns only the strict JSON parse on the raw
payload. -/
theorem C7_counterexample :
    safeParseToolArguments (RawArg.pystr pyDictLit) = [("a", JVal.jnum 1)]
    ∧ extractToolArgsJsonErrors
        [⟨"assistant", [⟨"get_user", RawArg.pystr pyDictLit⟩]⟩]
      = [⟨"get_user", "invalid JSON", some pyDictLit⟩] :=
  ⟨rfl, rfl⟩

/-- C7 amended: a ledger entry is recorded iff the raw payload is None, an
empty/null-like string, or a string rejected by the strict JSON parse
alone; payloads recoverable only via the permissive-literal or
heuristic-wrap paths still get an entry.  The parse-failed entry carries
the tool name and the raw excerpt truncated to 500 characters; absent and
empty payloads get their own entry kinds. -/
theorem C7_ledger_amended (func : RawFunctionCall) :
    (toolArgErrsOfCall func = [] ↔
      ((∃ d, func.arguments = RawArg.pydict d)
        ∨ (∃ s, func.arguments = RawArg.pystr s ∧ isNullLike (pyStrip s) = false
            ∧ (jsonLoads (pyStrip s)).isSome = true)))
    ∧ (∀ s, func.arguments = RawArg.pystr s → isNullLike (pyStrip s) = false →
        jsonLoads (pyStrip s) = none →
        toolArgErrsOfCall func
          = [⟨func.name, "invalid JSON", some (pyTake (pyStrip s) 500)⟩])
    ∧ (func.arguments = RawArg.pynone →
        toolArgErrsOfCall func = [⟨func.name, "arguments is None", none⟩])
    ∧ (∀ s, func.arguments = RawArg.pystr s → isNullLike (pyStrip s) = true →
        toolArgErrsOfCall func = [⟨func.name, "arguments empty", some (pyStrip s)⟩]) := by
  refine ⟨?_, ?_, ?_, ?_⟩
  · cases hfa : func.arguments with
    | pynone => simp [toolArgErrsOfCall, hfa]
    | pydict d => simp [toolArgErrsOfCall, hfa]
    | pystr a =>
      by_cases hn : isNullLike (pyStrip a)
      · simp [toolArgErrsOfCall, hfa, hn]
      · cases hj : jsonLoads (pyStrip a) with
        | some v => simp [toolArgErrsOfCall, hfa, hn, hj]
        | none => simp [toolArgErrsOfCall, hfa, hn, hj]
  · intro s hs hn hj
    simp [toolArgErrsOfCall, hs, hn, hj]
  · intro hn
    simp [toolArgErrsOfCall, hn]
  · intro s hs hn
    simp [toolArgErrsOfCall, hs, hn]

/-- Witness for the amended C7: a broken payload yields the parse-failed
entry with the tool name and raw excerpt. -/
theorem C7_ledger_amended_witness :
    toolArgErrsOfCall ⟨"get_user", RawArg.pystr ("[oops")⟩
      = [⟨"get_user", "invalid JSON", some ("[oops")⟩] :=
  (C7_ledger_amended ⟨"get_user", RawArg.pystr ("[oops")⟩).2.1 ("[oops") rfl rfl rfl

/-- C10 counterexample: an assistant text containing the TOOL_CALLS marker
but no ARGS marker yields no extracted tool call at all, and the returned
message keeps its content, contrary to the claim that the marker alone
triggers extraction with content set to None. -/
theorem C10_counterexample :
    strContains ("[TOOL_CALLSab") ("[TOOL_CALLS") = true
    ∧ parseTextToolCall ("[TOOL_CALLSab") = none
    ∧ generatePost (some ("[TOOL_CALLSab")) [] = (some ("[TOOL_CALLSab"), none) :=
  ⟨rfl, rfl, rfl⟩

/-- C10 amended: when the structured tool-call list is absent and the text
parse succeeds (the TOOL_CALLS marker is followed by an ARGS marker and a
non-empty tool name, with brace-balanced JSON arguments degrading to the
empty mapping), generate returns the single text-derived tool call with
content None, preserving tool-call/content exclusivity; a successful
parse also certifies the marker was present. -/
theorem C10_text_fallback_amended (c : String) (name : String)
    (args : List (String × JVal))
    (h : parseTextToolCall c = some (name, args)) :
    generatePost (some c) [] = (none, some [(name, args)])
    ∧ strContains c ("[TOOL_CALLS") = true := by
  constructor
  · simp [generatePost, h]
  · unfold parseTextToolCall at h
    unfold strContains
    cases hf : findSub (("[TOOL_CALLS").toList) c.toList with
    | none =>
      rw [hf] at h
      simp at h
    | some i =>
      rfl

/-- Witness for the amended C10 at a concrete provider text. -/
theorem C10_text_fallback_amended_witness :
    generatePost (some sampleToolText) []
      = (none, some [("get_user", [("id", JVal.jnum 1)])]) :=
  (C10_text_fallback_amended sampleToolText ("get_user") [("id", JVal.jnum 1)] rfl).1

end Tau2
